import Mathlib

/-!
Shallow embedding of `src/fetch_papers.py`: PubMed paper retrieval with
commercial-affiliation filtering.  Network and XML effects are modelled by
explicit outcome types (`SearchResponse`, `DetailResponse`); a Python
exception is an `Except.error`, and the top-level `try/except` of
`get_research_papers` is the final `match` that turns every error into an
empty DataFrame (here, the empty list of report rows).
-/

namespace FetchPapers

/-- The Python test `needle in hay` on strings is contiguous-substring containment;
`startsWithChars needle hay` is the prefix test used to define it. -/
def startsWithChars : List Char → List Char → Bool
  | [], _ => true
  | _ :: _, [] => false
  | a :: as, b :: bs => a == b && startsWithChars as bs

/-- `charsContain needle hay`: some suffix of `hay` starts with `needle`. -/
def charsContain (needle : List Char) : List Char → Bool
  | [] => needle.isEmpty
  | c :: t => startsWithChars needle (c :: t) || charsContain needle t

/-- `containsSubstr hay needle` embeds the Python containment test `needle in hay`. -/
def containsSubstr (hay needle : String) : Bool :=
  charsContain needle.toList hay.toList

/-- The Python method `str.lower()` (the affiliations here are ASCII, where the two
agree): lowercase every character. -/
def toLowerStr (s : String) : String :=
  String.mk (s.toList.map Char.toLower)

/-- `ACADEMIC_KEYWORDS` from fetch_papers.py line 12. -/
def ACADEMIC_KEYWORDS : List String :=
  ["university", "college", "institute", "hospital", "school", "research center"]

/-- `COMPANY_KEYWORDS` from fetch_papers.py line 13. -/
def COMPANY_KEYWORDS : List String :=
  ["Pharma", "Biotech", "Therapeutics", "Inc", "Ltd", "Corporation", "GmbH"]

/-- `is_academic_affiliation` (lines 15-17): any academic keyword occurs in
the lowercased affiliation. -/
def is_academic_affiliation (affiliation : String) : Bool :=
  ACADEMIC_KEYWORDS.any fun keyword => containsSubstr (toLowerStr affiliation) keyword

/-- `is_non_academic_affiliation` (lines 19-21): any company keyword occurs
in the affiliation, matched case-sensitively. -/
def is_non_academic_affiliation (affiliation : String) : Bool :=
  COMPANY_KEYWORDS.any fun keyword => containsSubstr affiliation keyword

/-- An author dict `{"name": ..., "affiliation": ...}` as built at line 74. -/
structure Author where
  name : String
  affiliation : String
deriving DecidableEq, Repr

/-- `identify_non_academic_authors` (lines 84-94): the for-loop that appends
exactly the authors whose affiliation passes `is_non_academic_affiliation`. -/
def identify_non_academic_authors : List Author → List Author
  | [] => []
  | author :: rest =>
    if is_non_academic_affiliation author.affiliation then
      author :: identify_non_academic_authors rest
    else
      identify_non_academic_authors rest

/-- One `<Author>` element of the efetch XML: each child element is optional. -/
structure XmlAuthor where
  lastName : Option String
  foreName : Option String
  affiliation : Option String
deriving DecidableEq, Repr

/-- The parts of the efetch XML document that `fetch_paper_details` reads:
optional `.//ArticleTitle`, optional `.//PubDate/Year`, and the `.//Author`
elements in document order. -/
structure XmlArticle where
  articleTitle : Option String
  pubDateYear : Option String
  authors : List XmlAuthor
deriving DecidableEq, Repr

/-- The dict returned by `fetch_paper_details` (lines 77-82); the redundant
`affiliations` list is recoverable as `authors.map (·.affiliation)`. -/
structure PaperRecord where
  title : String
  pub_date : String
  authors : List Author
deriving DecidableEq, Repr

/-- Lines 67-74: author-name assembly (`"{fore} {last}"` when both present,
else `"Unknown Author"`) and affiliation defaulting to `"N/A"`. -/
def parseAuthor (a : XmlAuthor) : Author :=
  { name :=
      match a.lastName, a.foreName with
      | some l, some f => f ++ " " ++ l
      | _, _ => "Unknown Author"
    affiliation := a.affiliation.getD "N/A" }

/-- Lines 57-82: field extraction with sentinel defaults for missing
elements. -/
def parse_paper_details (x : XmlArticle) : PaperRecord :=
  { title := x.articleTitle.getD "N/A"
    pub_date := x.pubDateYear.getD "Unknown Date"
    authors := x.authors.map parseAuthor }

/-- Outcome of one efetch detail request for one PubMed id. `raises` is any
Python exception escaping `fetch_paper_details` (a transport exception from
`requests.get`, or `ET.fromstring` failing on malformed XML); `httpError` is
a non-200 status code; `ok` is a 200 response whose body parsed into
`XmlArticle`. -/
inductive DetailResponse
  | raises
  | httpError
  | ok (article : XmlArticle)
deriving DecidableEq, Repr

/-- `fetch_paper_details` (lines 37-82) as a fallible computation: a non-200
status prints and returns `None`; an exception propagates; otherwise the
parsed record is returned. -/
def fetch_paper_details (r : DetailResponse) : Except Unit (Option PaperRecord) :=
  match r with
  | .raises => .error ()
  | .httpError => .ok none
  | .ok x => .ok (some (parse_paper_details x))

/-- The `esearchresult` JSON object, `idlist` field optional. -/
structure EsearchResult where
  idlist : Option (List String)
deriving DecidableEq, Repr

/-- The esearch JSON document, `esearchresult` field optional. -/
structure SearchJson where
  esearchresult : Option EsearchResult
deriving DecidableEq, Repr

/-- Outcome of the esearch request: `raises` is a transport exception or a
non-JSON body (`response.json()` failing); `json` is any parsed JSON body —
the code never checks the HTTP status here. -/
inductive SearchResponse
  | raises
  | json (j : SearchJson)
deriving DecidableEq, Repr

/-- `fetch_paper_ids` (lines 23-35): `data.get("esearchresult", {}).get("idlist", [])`;
missing fields silently become the empty list. -/
def fetch_paper_ids (r : SearchResponse) : Except Unit (List String) :=
  match r with
  | .raises => .error ()
  | .json j => .ok ((j.esearchresult.getD { idlist := none }).idlist.getD [])

/-- One row of the output DataFrame, columns of line 148. -/
structure ReportRow where
  pubmedId : String
  title : String
  publicationDate : String
  nonAcademicAuthors : String
  companyAffiliations : String
  correspondingAuthorEmail : String
deriving DecidableEq, Repr

/-- Lines 128-145: per-record classification, the academic-only filter, and
row assembly with `", ".join`. -/
def buildRow (pubmed_id : String) (pd : PaperRecord) : Option ReportRow :=
  if (identify_non_academic_authors pd.authors).isEmpty then none
  else some
    { pubmedId := pubmed_id
      title := pd.title
      publicationDate := pd.pub_date
      nonAcademicAuthors := String.intercalate ", "
        ((identify_non_academic_authors pd.authors).map fun author => author.name)
      companyAffiliations := String.intercalate ", "
        ((identify_non_academic_authors pd.authors).map fun author => author.affiliation)
      correspondingAuthorEmail := "Not Available" }

/-- The for-loop of lines 118-145 over the resolved ids: a `None` detail
result (`httpError`) is skipped via `continue`; an exception anywhere in the
loop aborts it (propagating to the enclosing `try`), discarding every row
accumulated so far. -/
def processIds (detail : String → DetailResponse) : List String → Except Unit (List ReportRow)
  | [] => .ok []
  | pubmed_id :: rest =>
    match fetch_paper_details (detail pubmed_id) with
    | .error e => .error e
    | .ok none => processIds detail rest
    | .ok (some pd) =>
      match buildRow pubmed_id pd with
      | none => processIds detail rest
      | some row =>
        match processIds detail rest with
        | .error e => .error e
        | .ok rows => .ok (row :: rows)

/-- The body of the `try` block of `get_research_papers` (lines 108-156):
resolve ids, return an empty DataFrame when none, else run the loop. -/
def get_research_papers_body (search : SearchResponse)
    (detail : String → DetailResponse) : Except Unit (List ReportRow) :=
  match fetch_paper_ids search with
  | .error e => .error e
  | .ok pubmed_ids =>
    if pubmed_ids.isEmpty then .ok []
    else processIds detail pubmed_ids

/-- `get_research_papers` (lines 96-164): both `except` clauses (lines
158-164) catch every exception and return an empty DataFrame. -/
def get_research_papers (search : SearchResponse)
    (detail : String → DetailResponse) : List ReportRow :=
  match get_research_papers_body search detail with
  | .error _ => []
  | .ok rows => rows

/-- The row the pipeline would emit for one id given the environment:
`none` when the fetch fails with a non-200 status or the record has no
commercial author. -/
def rowOf (detail : String → DetailResponse) (pubmed_id : String) : Option ReportRow :=
  match detail pubmed_id with
  | .ok x => buildRow pubmed_id (parse_paper_details x)
  | _ => none


/-! ## Concrete test fixtures -/

/-- An efetch article with one commercially affiliated author. -/
def xmlCommercial : XmlArticle :=
  { articleTitle := some "T1", pubDateYear := some "2020",
    authors := [{ lastName := some "Smith", foreName := some "J.",
                  affiliation := some "Acme Biotech Inc" }] }

/-- A detail environment that always answers with a non-200 status. -/
def detailNone : String → DetailResponse := fun _ => DetailResponse.httpError

/-- A detail environment where fetching id "B" raises and every other id
yields a commercially affiliated record. -/
def detailAbortB (pid : String) : DetailResponse :=
  if pid = "B" then DetailResponse.raises else DetailResponse.ok xmlCommercial

/-- A detail environment where id "B" answers with a non-200 status and
every other id yields a commercially affiliated record. -/
def detailSkipB (pid : String) : DetailResponse :=
  if pid = "B" then DetailResponse.httpError else DetailResponse.ok xmlCommercial

/-- A detail environment answering every id with the commercial record. -/
def detailAllComm : String → DetailResponse := fun _ => DetailResponse.ok xmlCommercial

def acadAuthor : Author := { name := "A. Lee", affiliation := "State University" }

def commAuthor : Author := { name := "J. Smith", affiliation := "Acme Biotech Inc" }

/-- An author whose affiliation matches both keyword sets. -/
def mixedAcadComm : Author := { name := "P. Q", affiliation := "University Biotech GmbH" }

def authorNA : Author := { name := "X. Y", affiliation := "N/A" }

def pdMixed : PaperRecord := { title := "T", pub_date := "2020", authors := [acadAuthor, commAuthor] }

def pdAcad : PaperRecord := { title := "T2", pub_date := "2021", authors := [acadAuthor] }

def rowMixed : ReportRow :=
  { pubmedId := "1", title := "T", publicationDate := "2020",
    nonAcademicAuthors := "J. Smith", companyAffiliations := "Acme Biotech Inc",
    correspondingAuthorEmail := "Not Available" }

def xmlBare : XmlArticle := { articleTitle := none, pubDateYear := none, authors := [] }

def xmlAuthorBare : XmlAuthor := { lastName := none, foreName := none, affiliation := none }

/-! ## Helper lemmas -/

/-- The append-if loop of `identify_non_academic_authors` is `List.filter`. -/
theorem identify_eq_filter (l : List Author) :
    identify_non_academic_authors l =
      l.filter fun a => is_non_academic_affiliation a.affiliation := by
  induction l with
  | nil => rfl
  | cons a t ih =>
    cases h : is_non_academic_affiliation a.affiliation <;>
      simp [identify_non_academic_authors, List.filter_cons, h, ih]

theorem filter_isEmpty_eq (p : Author → Bool) (l : List Author) :
    (l.filter p).isEmpty = !(l.any p) := by
  induction l with
  | nil => rfl
  | cons a t ih =>
    cases h : p a <;> simp [List.filter_cons, List.any_cons, h, ih]

/-- When no detail fetch raises, the loop completes and emits exactly the
per-id rows in id order. -/
theorem processIds_no_raises (detail : String → DetailResponse) :
    ∀ l : List String, (∀ pid ∈ l, detail pid ≠ DetailResponse.raises) →
      processIds detail l = Except.ok (l.filterMap (rowOf detail)) := by
  intro l
  induction l with
  | nil => intro _; rfl
  | cons x t ih =>
    intro h
    have hx : detail x ≠ DetailResponse.raises := h x (List.mem_cons_self x t)
    have ht : ∀ pid ∈ t, detail pid ≠ DetailResponse.raises :=
      fun pid hpid => h pid (List.mem_cons_of_mem x hpid)
    have ih' := ih ht
    unfold processIds
    cases hdx : detail x with
    | raises => exact absurd hdx hx
    | httpError =>
      simp [fetch_paper_details, List.filterMap_cons, rowOf, hdx, ih']
    | ok article =>
      cases hbr : buildRow x (parse_paper_details article) with
      | none => simp [fetch_paper_details, List.filterMap_cons, rowOf, hdx, hbr, ih']
      | some row => simp [fetch_paper_details, List.filterMap_cons, rowOf, hdx, hbr, ih']

/-- When no detail fetch raises, the whole pipeline returns the per-id rows
in the resolved order. -/
theorem get_research_papers_ids (detail : String → DetailResponse) (l : List String)
    (h : ∀ pid ∈ l, detail pid ≠ DetailResponse.raises) :
    get_research_papers
        (SearchResponse.json { esearchresult := some { idlist := some l } }) detail
      = l.filterMap (rowOf detail) := by
  have hp := processIds_no_raises detail l h
  cases l with
  | nil => rfl
  | cons x t =>
    have hstep : get_research_papers
        (SearchResponse.json { esearchresult := some { idlist := some (x :: t) } }) detail
      = (match processIds detail (x :: t) with
         | Except.error _ => []
         | Except.ok rows => rows) := rfl
    rw [hstep, hp]

/-- A row the pipeline emits for id `pid` carries `pid` in its first column. -/
theorem rowOf_pubmedId (detail : String → DetailResponse) (pid : String) (row : ReportRow)
    (h : rowOf detail pid = some row) : row.pubmedId = pid := by
  cases hd : detail pid with
  | raises => simp [rowOf, hd] at h
  | httpError => simp [rowOf, hd] at h
  | ok article =>
    simp only [rowOf, hd] at h
    unfold buildRow at h
    split at h
    · cases h
    · cases h
      rfl

theorem filterMap_rowOf_map (detail : String → DetailResponse) (l : List String) :
    (l.filterMap (rowOf detail)).map (fun row => row.pubmedId)
      = l.filter fun pid => (rowOf detail pid).isSome := by
  induction l with
  | nil => rfl
  | cons x t ih =>
    rw [List.filterMap_cons, List.filter_cons]
    cases hx : rowOf detail x with
    | none => simp [hx, ih]
    | some row =>
      have hpid := rowOf_pubmedId detail x row hx
      simp [hx, hpid, ih]

/-! ## Claim theorems -/

/-- Claim C1: a successfully fetched record yields a report row iff it has
at least one commercially classified author, and the row lists exactly the
commercial authors (names and affiliations) in author order; an
all-academic or all-unknown record yields no row. -/
theorem report_row_iff_commercial (pubmed_id : String) (pd : PaperRecord) :
    ((buildRow pubmed_id pd).isSome = true ↔
      pd.authors.any (fun a => is_non_academic_affiliation a.affiliation) = true) ∧
    ∀ row : ReportRow, buildRow pubmed_id pd = some row →
      row.nonAcademicAuthors = String.intercalate ", "
        ((pd.authors.filter fun a => is_non_academic_affiliation a.affiliation).map
          fun a => a.name) ∧
      row.companyAffiliations = String.intercalate ", "
        ((pd.authors.filter fun a => is_non_academic_affiliation a.affiliation).map
          fun a => a.affiliation) := by
  constructor
  · unfold buildRow
    rw [identify_eq_filter, filter_isEmpty_eq]
    cases h : pd.authors.any (fun a => is_non_academic_affiliation a.affiliation) <;>
      simp [h]
  · intro row hrow
    unfold buildRow at hrow
    rw [identify_eq_filter] at hrow
    split at hrow
    · cases hrow
    · cases hrow
      exact ⟨rfl, rfl⟩

theorem report_row_iff_commercial_witness :
    (buildRow "1" pdMixed).isSome = true ∧
    ¬ (buildRow "2" pdAcad).isSome = true ∧
    rowMixed.nonAcademicAuthors = String.intercalate ", "
      ((pdMixed.authors.filter fun a => is_non_academic_affiliation a.affiliation).map
        fun a => a.name) :=
  ⟨(report_row_iff_commercial "1" pdMixed).1.mpr (by decide),
   fun hc => absurd ((report_row_iff_commercial "2" pdAcad).1.mp hc) (by decide),
   ((report_row_iff_commercial "1" pdMixed).2 rowMixed (by decide)).1⟩

/-- Claim C2 counterexample: with ids ["A", "B", "C"], an exception while
fetching "B" (transport or XML-parse failure) aborts the whole run and the
report is empty, although "A" and "C" qualify — the claim that the rows of
the other identifiers survive is false. -/
theorem parse_failure_aborts_run :
    (buildRow "A" (parse_paper_details xmlCommercial)).isSome = true ∧
    (buildRow "C" (parse_paper_details xmlCommercial)).isSome = true ∧
    get_research_papers
        (SearchResponse.json { esearchresult := some { idlist := some ["A", "B", "C"] } })
        detailAbortB = [] :=
  ⟨rfl, rfl, rfl⟩

/-- Claim C2 (amended): when no per-identifier fetch raises, a non-200
detail response makes the pipeline skip that identifier and continue, and
the report contains exactly the qualifying rows of the remaining
identifiers in order. -/
theorem http_failure_skips (l : List String) (detail : String → DetailResponse)
    (h : ∀ pid ∈ l, detail pid ≠ DetailResponse.raises) :
    get_research_papers
        (SearchResponse.json { esearchresult := some { idlist := some l } }) detail
      = l.filterMap (rowOf detail) ∧
    ∀ pid : String, detail pid = DetailResponse.httpError → rowOf detail pid = none := by
  refine ⟨get_research_papers_ids detail l h, ?_⟩
  intro pid hpid
  simp [rowOf, hpid]

theorem http_failure_skips_witness :
    get_research_papers
        (SearchResponse.json { esearchresult := some { idlist := some ["A", "B", "C"] } })
        detailSkipB
      = ["A", "B", "C"].filterMap (rowOf detailSkipB) ∧
    rowOf detailSkipB "B" = none ∧
    (["A", "B", "C"].filterMap (rowOf detailSkipB)).map (fun row => row.pubmedId)
      = ["A", "C"] :=
  ⟨(http_failure_skips ["A", "B", "C"] detailSkipB (by decide)).1,
   (http_failure_skips ["A", "B", "C"] detailSkipB (by decide)).2 "B" (by decide),
   by decide⟩

/-- Claim C3 counterexample: a resolution failure (transport exception or
non-JSON body) yields the same caller-visible value as an empty-but-
successful search — the empty DataFrame — and a malformed response shape
with the expected fields missing is not an error at all but an empty id
list; no error is signaled to the caller. -/
theorem resolution_failure_not_signaled :
    get_research_papers SearchResponse.raises detailNone = [] ∧
    get_research_papers
        (SearchResponse.json { esearchresult := some { idlist := some [] } })
        detailNone = [] ∧
    fetch_paper_ids (SearchResponse.json { esearchresult := none }) = Except.ok [] :=
  ⟨rfl, rfl, rfl⟩

/-- Claim C3 (amended): a transport or JSON-parse failure during resolution
raises inside the `try` body (so it is terminal for the run), but the
top-level handler swallows it into an empty report, and a response missing
the expected fields is silently treated as zero identifiers. -/
theorem resolution_failure_swallowed (detail : String → DetailResponse) :
    get_research_papers_body SearchResponse.raises detail = Except.error () ∧
    get_research_papers SearchResponse.raises detail = [] ∧
    fetch_paper_ids (SearchResponse.json { esearchresult := none }) = Except.ok [] :=
  ⟨rfl, rfl, rfl⟩

/-- Claim C4: an affiliation containing any commercial keyword is classified
commercial and the author joins the commercial subsequence whenever present
in the author list — regardless of any academic keywords in the same
string, since the filter of the pipeline never consults the academic set. -/
theorem commercial_keyword_overrides (aff : String)
    (h : ∃ k ∈ COMPANY_KEYWORDS, containsSubstr aff k = true) :
    is_non_academic_affiliation aff = true ∧
    ∀ (authors : List Author) (a : Author), a.affiliation = aff →
      (a ∈ identify_non_academic_authors authors ↔ a ∈ authors) := by
  obtain ⟨k, hk, hck⟩ := h
  have hcomm : is_non_academic_affiliation aff = true :=
    List.any_eq_true.mpr ⟨k, hk, hck⟩
  refine ⟨hcomm, ?_⟩
  intro authors a ha
  rw [identify_eq_filter, List.mem_filter]
  simp [ha, hcomm]

theorem commercial_keyword_overrides_witness :
    is_academic_affiliation "University Biotech GmbH" = true ∧
    is_non_academic_affiliation "University Biotech GmbH" = true ∧
    (mixedAcadComm ∈ identify_non_academic_authors [mixedAcadComm] ↔
      mixedAcadComm ∈ [mixedAcadComm]) :=
  ⟨by decide,
   (commercial_keyword_overrides "University Biotech GmbH" (by decide)).1,
   (commercial_keyword_overrides "University Biotech GmbH" (by decide)).2
     [mixedAcadComm] mixedAcadComm rfl⟩

/-- Claim C5: an affiliation containing an academic keyword (lowercased
match) and no commercial keyword is classified academic, not commercial,
and an author carrying it never enters the commercial subsequence that
report rows are built from. -/
theorem academic_only_never_reported (aff : String)
    (h1 : ∃ k ∈ ACADEMIC_KEYWORDS, containsSubstr (toLowerStr aff) k = true)
    (h2 : ∀ k ∈ COMPANY_KEYWORDS, containsSubstr aff k = false) :
    is_academic_affiliation aff = true ∧
    is_non_academic_affiliation aff = false ∧
    ∀ (authors : List Author) (a : Author), a.affiliation = aff →
      a ∉ identify_non_academic_authors authors := by
  obtain ⟨k, hk, hck⟩ := h1
  have hacad : is_academic_affiliation aff = true :=
    List.any_eq_true.mpr ⟨k, hk, hck⟩
  have hnot : is_non_academic_affiliation aff = false := by
    unfold is_non_academic_affiliation
    rw [List.any_eq_false]
    intro x hx
    simp [h2 x hx]
  refine ⟨hacad, hnot, ?_⟩
  intro authors a ha hmem
  rw [identify_eq_filter, List.mem_filter, ha, hnot] at hmem
  exact absurd hmem.2 (by simp)

theorem academic_only_never_reported_witness :
    is_academic_affiliation "State University" = true ∧
    is_non_academic_affiliation "State University" = false ∧
    acadAuthor ∉ identify_non_academic_authors [acadAuthor, commAuthor] :=
  ⟨(academic_only_never_reported "State University" (by decide) (by decide)).1,
   (academic_only_never_reported "State University" (by decide) (by decide)).2.1,
   (academic_only_never_reported "State University" (by decide) (by decide)).2.2
     [acadAuthor, commAuthor] acadAuthor rfl⟩

/-- Claim C6: the report preserves the resolver identifier order — the id
column of the emitted rows is exactly the stable filter of the resolved id
list by "contributes a row", with no re-sort. -/
theorem report_preserves_order (l : List String) (detail : String → DetailResponse)
    (h : ∀ pid ∈ l, detail pid ≠ DetailResponse.raises) :
    (get_research_papers
        (SearchResponse.json { esearchresult := some { idlist := some l } }) detail).map
        (fun row => row.pubmedId)
      = l.filter fun pid => (rowOf detail pid).isSome := by
  rw [get_research_papers_ids detail l h, filterMap_rowOf_map]

theorem report_preserves_order_witness :
    (get_research_papers
        (SearchResponse.json { esearchresult := some { idlist := some ["A", "B", "C"] } })
        detailAllComm).map (fun row => row.pubmedId)
      = ["A", "B", "C"] := by
  rw [report_preserves_order ["A", "B", "C"] detailAllComm (by decide)]
  decide

/-- Claim C7: a resolution that succeeds with zero identifiers ends the run
normally — the body completes without an exception and the report is
empty. -/
theorem empty_resolution_empty_report (search : SearchResponse)
    (detail : String → DetailResponse) (h : fetch_paper_ids search = Except.ok []) :
    get_research_papers_body search detail = Except.ok [] ∧
    get_research_papers search detail = [] := by
  have hbody : get_research_papers_body search detail = Except.ok [] := by
    unfold get_research_papers_body
    rw [h]
    rfl
  refine ⟨hbody, ?_⟩
  unfold get_research_papers
  rw [hbody]

theorem empty_resolution_empty_report_witness :
    get_research_papers_body
        (SearchResponse.json { esearchresult := some { idlist := some [] } })
        detailNone = Except.ok [] ∧
    get_research_papers
        (SearchResponse.json { esearchresult := some { idlist := some [] } })
        detailNone = [] :=
  empty_resolution_empty_report _ detailNone rfl

/-- Claim C8: each missing optional field of a parsed detail response
degrades to its sentinel — title to "N/A", publication year to
"Unknown Date", author name to "Unknown Author" (when fore or last name is
absent), affiliation to "N/A". -/
theorem missing_fields_sentinels (x : XmlArticle) :
    (x.articleTitle = none → (parse_paper_details x).title = "N/A") ∧
    (x.pubDateYear = none → (parse_paper_details x).pub_date = "Unknown Date") ∧
    (parse_paper_details x).authors = x.authors.map parseAuthor ∧
    (∀ a : XmlAuthor, (a.lastName = none ∨ a.foreName = none) →
      (parseAuthor a).name = "Unknown Author") ∧
    (∀ a : XmlAuthor, a.affiliation = none → (parseAuthor a).affiliation = "N/A") := by
  refine ⟨?_, ?_, rfl, ?_, ?_⟩
  · intro h
    simp [parse_paper_details, h]
  · intro h
    simp [parse_paper_details, h]
  · intro a h
    rcases h with h | h
    · simp [parseAuthor, h]
    · cases hl : a.lastName <;> simp [parseAuthor, h, hl]
  · intro a h
    simp [parseAuthor, h]

theorem missing_fields_sentinels_witness :
    (parse_paper_details xmlBare).title = "N/A" ∧
    (parse_paper_details xmlBare).pub_date = "Unknown Date" ∧
    (parseAuthor xmlAuthorBare).name = "Unknown Author" ∧
    (parseAuthor xmlAuthorBare).affiliation = "N/A" :=
  ⟨(missing_fields_sentinels xmlBare).1 rfl,
   (missing_fields_sentinels xmlBare).2.1 rfl,
   (missing_fields_sentinels xmlBare).2.2.2.1 xmlAuthorBare (Or.inl rfl),
   (missing_fields_sentinels xmlBare).2.2.2.2 xmlAuthorBare rfl⟩

/-- Claim C9: `get_research_papers` is total at its boundary — every
internal exception is caught and becomes the empty report, which makes a
fatal resolution failure indistinguishable from a successful run with zero
identifiers. -/
theorem no_exception_propagation (search : SearchResponse)
    (detail : String → DetailResponse) :
    (∀ e : Unit, get_research_papers_body search detail = Except.error e →
      get_research_papers search detail = []) ∧
    get_research_papers SearchResponse.raises detail =
      get_research_papers
        (SearchResponse.json { esearchresult := some { idlist := some [] } }) detail := by
  constructor
  · intro e he
    unfold get_research_papers
    rw [he]
  · rfl

theorem no_exception_propagation_witness :
    get_research_papers SearchResponse.raises detailNone = [] :=
  (no_exception_propagation SearchResponse.raises detailNone).1 () rfl

/-- Claim C10: an author element with no Affiliation child gets the
sentinel "N/A", which (like the empty string) matches no commercial
keyword, so such authors are never classified commercial and never enter
the commercial subsequence any report row lists. -/
theorem missing_affiliation_never_commercial (a : XmlAuthor)
    (h : a.affiliation = none) :
    (parseAuthor a).affiliation = "N/A" ∧
    is_non_academic_affiliation "N/A" = false ∧
    is_non_academic_affiliation "" = false ∧
    ∀ (authors : List Author) (b : Author),
      b.affiliation = "N/A" ∨ b.affiliation = "" →
      b ∉ identify_non_academic_authors authors := by
  refine ⟨by simp [parseAuthor, h], by decide, by decide, ?_⟩
  intro authors b hb hmem
  rw [identify_eq_filter, List.mem_filter] at hmem
  rcases hb with hb | hb
  · rw [hb] at hmem
    exact absurd hmem.2 (by decide)
  · rw [hb] at hmem
    exact absurd hmem.2 (by decide)

theorem missing_affiliation_never_commercial_witness :
    (parseAuthor { lastName := some "Smith", foreName := some "J.",
                   affiliation := none }).affiliation = "N/A" ∧
    authorNA ∉ identify_non_academic_authors [authorNA, commAuthor] :=
  ⟨(missing_affiliation_never_commercial
      { lastName := some "Smith", foreName := some "J.", affiliation := none } rfl).1,
   (missing_affiliation_never_commercial
      { lastName := some "Smith", foreName := some "J.", affiliation := none } rfl).2.2.2
     [authorNA, commAuthor] authorNA (Or.inl rfl)⟩

end FetchPapers
